import Mathlib

/-!
Shallow embedding of the SimpliSafe 3 API client
(`src/simplisafe.js`, class `SimpliSafe3`) and of the alarm accessory
(`SS3Alarm`).  Stateful JavaScript methods are modelled as explicit
state-passing functions; timers are modelled as scheduled expiry values;
upstream HTTP responses are supplied as explicit oracle inputs.
-/

namespace SS3

/-! ### Constants (src/simplisafe.js lines 9-16, 83; alarm accessory line 8) -/

def subscriptionCacheTime : Nat := 3000

def sensorCacheTime : Nat := 3000

def rateLimitInitialInterval : Nat := 60000

def rateLimitMaxInterval : Nat := 2 * 60 * 60 * 1000

def sensorRefreshLockoutDuration : Nat := 15000

def SOCKET_RETRY_INTERVAL : Nat := 1000

def targetStateMaxRetries : Nat := 5

def validAlarmStates : List String := ["off", "home", "away"]

/-! ### Rate-limit guard state (fields isBlocked / nextBlockInterval / nextAttempt) -/

structure RLState where
  isBlocked : Bool
  nextBlockInterval : Nat
  nextAttempt : Nat
  deriving Repr, DecidableEq

/-- Field initializers plus the `_resetRateLimitHandler()` call in the
constructor: `isBlocked = false`, `nextBlockInterval = rateLimitInitialInterval`,
`nextAttempt = 0`. -/
def freshRLState : RLState :=
  { isBlocked := false, nextBlockInterval := rateLimitInitialInterval, nextAttempt := 0 }

/-- `_resetRateLimitHandler()` (lines 153-156). -/
def resetRateLimitHandler (st : RLState) : RLState :=
  { st with isBlocked := false, nextBlockInterval := rateLimitInitialInterval }

/-- `_setRateLimitHandler()` (lines 158-164): sets `isBlocked`, schedules
`nextAttempt = now + nextBlockInterval`, then doubles `nextBlockInterval`
only when it is still below `rateLimitMaxInterval`. -/
def setRateLimitHandler (now : Nat) (st : RLState) : RLState :=
  let st1 : RLState :=
    { st with isBlocked := true, nextAttempt := now + st.nextBlockInterval }
  if st1.nextBlockInterval < rateLimitMaxInterval then
    { st1 with nextBlockInterval := st1.nextBlockInterval * 2 }
  else
    st1

/-- Iterated engagement of the rate-limit handler (consecutive 403s with no
intervening reset). -/
def engageTimes (now : Nat) : Nat → RLState → RLState
  | 0, st => st
  | n + 1, st => setRateLimitHandler now (engageTimes now n st)

/-! ### The authenticated request executor `request(params, tokenRefreshed)` -/

/-- Outcome of one axios call, as observed in the catch handler:
success, no `err.response` (network failure), or an HTTP status code. -/
inductive HttpOutcome
  | ok
  | noResponse
  | status (code : Nat)
  deriving Repr, DecidableEq

/-- Outcome of `authManager.refreshCredentials()`: success, or a rejection
whose `err.status` is the given code. -/
inductive RefreshOutcome
  | ok
  | fail (status : Nat)
  deriving Repr, DecidableEq

/-- Responses the upstream would give to the (at most two) network calls of
one `request` invocation, plus the refresh result used on a 401. -/
structure ReqEnv where
  first : HttpOutcome
  refresh : RefreshOutcome
  second : HttpOutcome
  deriving Repr, DecidableEq

inductive ReqError
  | rateLimit
  | upstream (status : Nat)
  deriving Repr, DecidableEq

/-- The retried call `request(params, true)` (same body, but a second 401 is
no longer special-cased and falls through to the generic branches).
Returns (result, new rate-limit state, number of network calls issued). -/
def requestRetried (now : Nat) (st : RLState) (o : HttpOutcome) :
    Except ReqError Unit × RLState × Nat :=
  if st.isBlocked ∧ now < st.nextAttempt then
    (Except.error ReqError.rateLimit, st, 0)
  else
    match o with
    | HttpOutcome.ok => (Except.ok (), resetRateLimitHandler st, 1)
    | HttpOutcome.noResponse => (Except.error ReqError.rateLimit, st, 1)
    | HttpOutcome.status c =>
        if c = 403 then
          (Except.error ReqError.rateLimit, setRateLimitHandler now st, 1)
        else
          (Except.error (ReqError.upstream c), st, 1)

/-- `request(params)` (lines 166-215): fail fast while blocked and before
`nextAttempt`; on success reset the guard; a missing response becomes a
RateLimitError; a first-attempt 401 triggers a credential refresh and one
retry (a refresh rejection with status 403 engages the guard); a 403
engages the guard and raises RateLimitError; other statuses re-raise the
body.  Returns (result, new rate-limit state, network calls issued). -/
def request (now : Nat) (st : RLState) (env : ReqEnv) :
    Except ReqError Unit × RLState × Nat :=
  if st.isBlocked ∧ now < st.nextAttempt then
    (Except.error ReqError.rateLimit, st, 0)
  else
    match env.first with
    | HttpOutcome.ok => (Except.ok (), resetRateLimitHandler st, 1)
    | HttpOutcome.noResponse => (Except.error ReqError.rateLimit, st, 1)
    | HttpOutcome.status c =>
        if c = 401 then
          match env.refresh with
          | RefreshOutcome.ok =>
              let r := requestRetried now st env.second
              (r.1, r.2.1, 1 + r.2.2)
          | RefreshOutcome.fail s =>
              if s = 403 then
                (Except.error ReqError.rateLimit, setRateLimitHandler now st, 1)
              else
                (Except.error (ReqError.upstream s), st, 1)
        else if c = 403 then
          (Except.error ReqError.rateLimit, setRateLimitHandler now st, 1)
        else
          (Except.error (ReqError.upstream c), st, 1)

/-! ### Subscription cache / in-flight de-duplication (`getSubscription`, lines 281-300)

The per-key slot `lastSubscriptionRequests[subscriptionId]` holds the
promise handle of the live (in-flight or recently settled) request; handles
are identified by the upstream request that produced them, so two callers
holding the same handle observe the same settled result or error.  The
`.finally` eviction timer is modelled as an explicit `expire` operation
that fires `subscriptionCacheTime` after settlement. -/

structure SubCache where
  entry : Option Nat
  nextReqId : Nat
  requestsIssued : Nat
  deriving Repr, DecidableEq

def emptySubCache : SubCache := { entry := none, nextReqId := 0, requestsIssued := 0 }

/-- The cache branch of `getSubscription(subId, forceRefresh)` for a fixed
resolved key: when `forceRefresh` holds or no live entry exists, issue one
upstream request and store its handle under the key immediately; then every
caller awaits the stored handle.  Returns (handle awaited, new state). -/
def getSubscription (forceRefresh : Bool) (st : SubCache) : Nat × SubCache :=
  match st.entry, forceRefresh with
  | some h, false => (h, st)
  | _, _ =>
      (st.nextReqId,
        { entry := some st.nextReqId,
          nextReqId := st.nextReqId + 1,
          requestsIssued := st.requestsIssued + 1 })

/-- The eviction scheduled in `.finally`: `lastSubscriptionRequests[subscriptionId] = null`. -/
def expireSubCache (st : SubCache) : SubCache := { st with entry := none }

/-- A sequence of `getSubscription` calls (no eviction firing in between),
returning the handle each caller receives. -/
def runGetSubscriptions (calls : List Bool) (st : SubCache) : List Nat × SubCache :=
  match calls with
  | [] => ([], st)
  | f :: rest =>
      let r := getSubscription f st
      let rr := runGetSubscriptions rest r.2
      (r.1 :: rr.1, rr.2)

/-! ### Realtime reconnect policy of the alarm accessory (`SS3Alarm.startListening`)

The accessory keeps `nSocketConnectFailures`; the event callback resets it
on `CONNECTED` and schedules a fixed `SOCKET_RETRY_INTERVAL` retry on
`CONNECTION_LOST`; a `RateLimitError` thrown by `subscribeToEvents` schedules
a retry after `(2 ** nSocketConnectFailures) * SOCKET_RETRY_INTERVAL` and then
increments the counter (part_000 lines 184-243). -/

inductive ListenEvent
  | connected
  | disconnect
  | connectionLost
  | rateLimitErr
  deriving Repr, DecidableEq

/-- One step of the accessory's reconnect bookkeeping: given the current
`nSocketConnectFailures`, return the new counter and the retry delay
scheduled by `setTimeout` (`none` when no retry is scheduled). -/
def alarmStep (n : Nat) : ListenEvent → Nat × Option Nat
  | ListenEvent.connected => (0, none)
  | ListenEvent.disconnect => (n, none)
  | ListenEvent.connectionLost => (n, some SOCKET_RETRY_INTERVAL)
  | ListenEvent.rateLimitErr => (n + 1, some (2 ^ n * SOCKET_RETRY_INTERVAL))

/-- The retry delay scheduled when `subscribeToEvents` throws a
`RateLimitError` (part_000 line 235). -/
def rateLimitRetryInterval (nSocketConnectFailures : Nat) : Nat :=
  2 ^ nSocketConnectFailures * SOCKET_RETRY_INTERVAL

/-- The delays scheduled along a sequence of listen events. -/
def listenTrace (n : Nat) : List ListenEvent → List (Option Nat)
  | [] => []
  | e :: rest =>
      let r := alarmStep n e
      r.2 :: listenTrace r.1 rest

/-! ### Sensor poller registry and timer (`subscribeToSensor` / `unsubscribeFromSensor`)

`subscribeToSensor` creates the interval timer only when the field
`sensorRefreshInterval` is unset; `unsubscribeFromSensor` clears the timer
when the registry empties but leaves the field holding the (cleared)
handle (lines 657-709). -/

structure PollState where
  handleSet : Bool
  timerAlive : Bool
  subs : List Nat
  deriving Repr, DecidableEq

def emptyPollState : PollState := { handleSet := false, timerAlive := false, subs := [] }

/-- `subscribeToSensor(id, callback)`: start the interval only when
`this.sensorRefreshInterval` is falsy, then push the subscriber. -/
def subscribeToSensor (id : Nat) (st : PollState) : PollState :=
  let st1 :=
    if st.handleSet = false then
      { st with handleSet := true, timerAlive := true }
    else
      st
  { st1 with subs := st1.subs ++ [id] }

/-- `unsubscribeFromSensor(id)`: filter the registry; when it empties,
`clearInterval(this.sensorRefreshInterval)` — the field itself is not
cleared. -/
def unsubscribeFromSensor (id : Nat) (st : PollState) : PollState :=
  let subs := st.subs.filter (fun s => s ≠ id)
  if subs.length = 0 then
    { st with subs := subs, timerAlive := false }
  else
    { st with subs := subs }

/-! ### Sensor-refresh lockout (`handleSensorRefreshLockout`, lines 711-718)

`sensorRefreshLockoutTimeout` is modelled as the absolute time at which the
single pending timer fires (`none` = no pending timer). -/

structure LockoutState where
  enabled : Bool
  timeout : Option Nat
  deriving Repr, DecidableEq

/-- `handleSensorRefreshLockout()`: no-op unless `sensorRefreshLockoutEnabled`;
otherwise clear any pending lockout timer and start a fresh one firing
`sensorRefreshLockoutDuration` from now. -/
def handleSensorRefreshLockout (now : Nat) (st : LockoutState) : LockoutState :=
  if st.enabled = false then st
  else { st with timeout := some (now + sensorRefreshLockoutDuration) }

/-- The pending lockout timer firing: `this.sensorRefreshLockoutTimeout = undefined`. -/
def lockoutFire (st : LockoutState) : LockoutState := { st with timeout := none }

/-! ### Normalized event dispatch (`_socketCallback` inside `subscribeToEvents`, lines 466-556) -/

inductive PushType
  | alarm
  | alarmCancel
  | activity
  | activityQuiet
  | otherType
  deriving Repr, DecidableEq

structure PushData where
  sid : Nat
  eventType : PushType
  eventCid : Nat
  deriving Repr, DecidableEq

inductive EventKind
  | ALARM_TRIGGER
  | ALARM_OFF
  | ALARM_DISARM
  | ALARM_CANCEL
  | HOME_EXIT_DELAY
  | HOME_ARM
  | AWAY_EXIT_DELAY
  | AWAY_ARM
  | MOTION
  | ENTRY
  | CAMERA_MOTION
  | DOORBELL
  | DOORLOCK_LOCKED
  | DOORLOCK_UNLOCKED
  | DOORLOCK_ERROR
  deriving Repr, DecidableEq

/-- Effect of one inbound push: whether `callback` was invoked (and with
which normalized event; `some none` is the unknown-event `callback(null, data)`),
and whether `handleSensorRefreshLockout()` was called. -/
structure CallbackEffect where
  invocation : Option (Option EventKind)
  armsLockout : Bool
  deriving Repr, DecidableEq

/-- `_socketCallback(data)`: drop pushes for a foreign subscription id, map
`alarm`/`alarmCancel` event types directly, otherwise dispatch on `eventCid`;
1602 (automatic test) invokes nothing; unknown codes invoke `callback(null, data)`. -/
def socketCallback (subId : Nat) (d : PushData) : CallbackEffect :=
  if d.sid ≠ subId then ⟨none, false⟩
  else
    match d.eventType with
    | PushType.alarm => ⟨some (some EventKind.ALARM_TRIGGER), false⟩
    | PushType.alarmCancel => ⟨some (some EventKind.ALARM_OFF), false⟩
    | _ =>
        if d.eventCid = 1400 ∨ d.eventCid = 1407 then
          ⟨some (some EventKind.ALARM_DISARM), true⟩
        else if d.eventCid = 1406 then
          ⟨some (some EventKind.ALARM_CANCEL), true⟩
        else if d.eventCid = 1409 then
          ⟨some (some EventKind.MOTION), false⟩
        else if d.eventCid = 9441 then
          ⟨some (some EventKind.HOME_EXIT_DELAY), false⟩
        else if d.eventCid = 3441 ∨ d.eventCid = 3491 then
          ⟨some (some EventKind.HOME_ARM), true⟩
        else if d.eventCid = 9401 ∨ d.eventCid = 9407 then
          ⟨some (some EventKind.AWAY_EXIT_DELAY), false⟩
        else if d.eventCid = 3401 ∨ d.eventCid = 3407 ∨ d.eventCid = 3487 ∨ d.eventCid = 3481 then
          ⟨some (some EventKind.AWAY_ARM), true⟩
        else if d.eventCid = 1429 then
          ⟨some (some EventKind.ENTRY), false⟩
        else if d.eventCid = 1110 ∨ d.eventCid = 1154 ∨ d.eventCid = 1159 ∨ d.eventCid = 1162 ∨
            d.eventCid = 1132 ∨ d.eventCid = 1134 ∨ d.eventCid = 1120 then
          ⟨some (some EventKind.ALARM_TRIGGER), false⟩
        else if d.eventCid = 1170 then
          ⟨some (some EventKind.CAMERA_MOTION), false⟩
        else if d.eventCid = 1458 then
          ⟨some (some EventKind.DOORBELL), false⟩
        else if d.eventCid = 9700 then
          ⟨some (some EventKind.DOORLOCK_UNLOCKED), false⟩
        else if d.eventCid = 9701 then
          ⟨some (some EventKind.DOORLOCK_LOCKED), false⟩
        else if d.eventCid = 9703 then
          ⟨some (some EventKind.DOORLOCK_ERROR), false⟩
        else if d.eventCid = 1602 then
          ⟨none, false⟩
        else
          ⟨some none, false⟩

/-! ### `setAlarmState(newState)` (lines 336-353)

Validation happens before anything else; on a successful POST the method
calls `handleSensorRefreshLockout()`.  The POST outcome is an oracle input;
the returned `Nat` counts the network calls the method issued. -/

inductive AlarmSetStep
  | invalidState
  | requestFailed
  | requestSucceeded
  deriving Repr, DecidableEq

/-- JavaScript `String.prototype.toLowerCase()` on the ASCII state names:
per-character lowering. -/
def toLowerCase (s : String) : String := ⟨s.data.map Char.toLower⟩

/-- `setAlarmState(newState)`: lowercase, reject values outside
`validAlarmStates` before any network call, otherwise POST the state and on
success arm the sensor-refresh lockout. -/
def setAlarmState (newState : String) (reqOk : Bool) (now : Nat) (lo : LockoutState) :
    AlarmSetStep × Nat × LockoutState :=
  let state := toLowerCase newState
  if validAlarmStates.contains state = false then
    (AlarmSetStep.invalidState, 0, lo)
  else if reqOk then
    (AlarmSetStep.requestSucceeded, 1, handleSensorRefreshLockout now lo)
  else
    (AlarmSetStep.requestFailed, 1, lo)

/-! ### `SS3Alarm.setTargetState` retry loop (part_000 lines 144-182)

One call to `simplisafe.setAlarmState` per attempt; a 409/504 rejection with
`nRetries < targetStateMaxRetries` schedules a retry after 1000 ms;
success and terminal failure both reset `nRetries` to 0. -/

inductive SetOutcome
  | ok
  | err (statusCode : Nat)
  deriving Repr, DecidableEq

inductive SetResult
  | success (finalRetries : Nat)
  | failure (statusCode : Nat) (finalRetries : Nat)
  | pending (nRetries : Nat)
  deriving Repr, DecidableEq

/-- `setTargetState` driven by the list of outcomes of its successive
`setAlarmState` attempts.  Returns (result delivered to the callback,
number of attempts issued, delays of the scheduled retries in order). -/
def setTargetState (nRetries : Nat) : List SetOutcome → SetResult × Nat × List Nat
  | [] => (SetResult.pending nRetries, 0, [])
  | SetOutcome.ok :: _ => (SetResult.success 0, 1, [])
  | SetOutcome.err s :: rest =>
      if (s = 409 ∨ s = 504) ∧ nRetries < targetStateMaxRetries then
        let r := setTargetState (nRetries + 1) rest
        (r.1, r.2.1 + 1, 1000 :: r.2.2)
      else
        (SetResult.failure s 0, 1, [])

end SS3

namespace SS3

/-! ### Sanity examples (concrete evaluations of the embedding) -/

example :
    (request 5 freshRLState ⟨HttpOutcome.status 403, RefreshOutcome.ok, HttpOutcome.ok⟩).2.1.isBlocked = true := by
  decide

example :
    (request 5 freshRLState ⟨HttpOutcome.ok, RefreshOutcome.ok, HttpOutcome.ok⟩).2.1.nextBlockInterval = 60000 := by
  decide

example : (engageTimes 0 7 freshRLState).nextBlockInterval = 7680000 := by decide

/-! ### Helper lemmas -/

/-- While a live entry exists, `getSubscription` with `forceRefresh = false`
returns that entry's handle and leaves the cache untouched. -/
theorem runGetSubscriptions_of_live (n : Nat) (st : SubCache) (h : Nat)
    (hl : st.entry = some h) :
    runGetSubscriptions (List.replicate n false) st = (List.replicate n h, st) := by
  induction n with
  | zero => simp [runGetSubscriptions]
  | succ k ih =>
      simp only [List.replicate_succ, runGetSubscriptions, getSubscription, hl, ih]

/-- The `nextBlockInterval` of the guard after `n` consecutive engagements
from the fresh state: it doubles seven times and then stalls at
`60000 * 2 ^ 7 = 7680000`. -/
theorem engageTimes_interval (now : Nat) (n : Nat) :
    (engageTimes now n freshRLState).nextBlockInterval =
      rateLimitInitialInterval * 2 ^ (min n 7) := by
  induction n with
  | zero => simp [engageTimes, freshRLState]
  | succ k ih =>
      have hstep : ∀ st : RLState,
          (setRateLimitHandler now st).nextBlockInterval =
            if st.nextBlockInterval < rateLimitMaxInterval then
              st.nextBlockInterval * 2
            else st.nextBlockInterval := by
        intro st
        simp only [setRateLimitHandler]
        split <;> rfl
      rw [engageTimes, hstep, ih]
      rcases Nat.lt_or_ge k 7 with hk | hk
      · have hklt : rateLimitInitialInterval * 2 ^ (min k 7) < rateLimitMaxInterval := by
          have h2 : 2 ^ (min k 7) ≤ 2 ^ 6 := by
            apply Nat.pow_le_pow_right (by norm_num)
            omega
          calc rateLimitInitialInterval * 2 ^ (min k 7)
              ≤ rateLimitInitialInterval * 2 ^ 6 := Nat.mul_le_mul_left _ h2
            _ < rateLimitMaxInterval := by
                norm_num [rateLimitInitialInterval, rateLimitMaxInterval]
        rw [if_pos hklt]
        have hmin1 : min k 7 = k := by omega
        have hmin2 : min (k + 1) 7 = k + 1 := by omega
        rw [hmin1, hmin2, pow_succ, Nat.mul_assoc]
      · have hmin1 : min k 7 = 7 := by omega
        have hmin2 : min (k + 1) 7 = 7 := by omega
        rw [hmin1, hmin2]
        rw [if_neg (by norm_num [rateLimitInitialInterval, rateLimitMaxInterval])]

/-- The delays scheduled by consecutive rate-limit failures starting at
failure count `m`. -/
theorem listenTrace_rateLimit (k m : Nat) :
    listenTrace m (List.replicate k ListenEvent.rateLimitErr) =
      (List.range k).map (fun i => some (2 ^ (m + i) * SOCKET_RETRY_INTERVAL)) := by
  induction k generalizing m with
  | zero => simp [listenTrace]
  | succ j ih =>
      rw [List.replicate_succ, listenTrace, List.range_succ_eq_map]
      simp only [alarmStep, ih (m + 1), List.map_cons, List.map_map]
      rw [Nat.add_zero]
      refine congrArg (List.cons _) ?_
      apply List.map_congr_left
      intro i _
      simp only [Function.comp_apply, Nat.succ_eq_add_one]
      have he : m + (i + 1) = m + 1 + i := by omega
      rw [he]

/-- Every `CONNECTION_LOST` retry is scheduled at the fixed interval and
leaves the failure counter unchanged. -/
theorem listenTrace_connectionLost (k n : Nat) :
    listenTrace n (List.replicate k ListenEvent.connectionLost) =
      List.replicate k (some SOCKET_RETRY_INTERVAL) := by
  induction k with
  | zero => simp [listenTrace]
  | succ j ih =>
      rw [List.replicate_succ, listenTrace, List.replicate_succ]
      simp only [alarmStep]
      rw [ih]

/-- Success trace of `setTargetState`: with retry budget left, `k` retryable
failures followed by a success deliver the success, reset the counter, and
schedule `k` one-second retries. -/
theorem setTargetState_success_trace (k : Nat) (s : Nat) (n : Nat)
    (hb : n + k ≤ targetStateMaxRetries) (hs : s = 409 ∨ s = 504) :
    setTargetState n (List.replicate k (SetOutcome.err s) ++ [SetOutcome.ok]) =
      (SetResult.success 0, k + 1, List.replicate k 1000) := by
  induction k generalizing n with
  | zero => simp [setTargetState]
  | succ j ih =>
      rw [List.replicate_succ, List.cons_append]
      simp only [setTargetState]
      rw [if_pos ⟨hs, by simp only [targetStateMaxRetries] at hb ⊢; omega⟩]
      rw [ih (n + 1) (by simp only [targetStateMaxRetries] at hb ⊢; omega)]
      simp [List.replicate_succ]

/-- Engaging the guard always leaves it blocked, whichever doubling branch
is taken. -/
theorem setRateLimitHandler_isBlocked (now : Nat) (st : RLState) :
    (setRateLimitHandler now st).isBlocked = true := by
  simp only [setRateLimitHandler]
  split <;> rfl

/-! ### Claim theorems -/

/-- C1: with `forceRefresh = false` and no eviction firing, a burst of
`getSubscription` calls on the same key issues exactly one upstream request,
every caller receives the same handle (hence the same settled result or
error), and the pending handle is stored under the key by the first call,
before the request settles, so later callers join it. -/
theorem getSubscription_single_upstream_request (n : Nat) (st : SubCache)
    (h : st.entry = none) :
    (runGetSubscriptions (List.replicate (n + 1) false) st).1 =
      List.replicate (n + 1) st.nextReqId ∧
    (runGetSubscriptions (List.replicate (n + 1) false) st).2.requestsIssued =
      st.requestsIssued + 1 ∧
    (getSubscription false st).2.entry = some st.nextReqId := by
  have h1 : getSubscription false st =
      (st.nextReqId,
        { entry := some st.nextReqId, nextReqId := st.nextReqId + 1,
          requestsIssued := st.requestsIssued + 1 }) := by
    simp [getSubscription, h]
  have hrun : runGetSubscriptions (List.replicate (n + 1) false) st =
      (st.nextReqId :: List.replicate n st.nextReqId,
        { entry := some st.nextReqId, nextReqId := st.nextReqId + 1,
          requestsIssued := st.requestsIssued + 1 }) := by
    rw [List.replicate_succ, runGetSubscriptions]
    simp only [h1]
    rw [runGetSubscriptions_of_live n _ st.nextReqId rfl]
  refine ⟨?_, ?_, ?_⟩
  · rw [hrun, List.replicate_succ]
  · rw [hrun]
  · rw [h1]

/-- C1 witness: three concurrent calls on a fresh key. -/
theorem getSubscription_single_upstream_request_witness :
    (runGetSubscriptions (List.replicate (2 + 1) false) emptySubCache).1 =
      List.replicate (2 + 1) emptySubCache.nextReqId ∧
    (runGetSubscriptions (List.replicate (2 + 1) false) emptySubCache).2.requestsIssued =
      emptySubCache.requestsIssued + 1 ∧
    (getSubscription false emptySubCache).2.entry = some emptySubCache.nextReqId :=
  getSubscription_single_upstream_request 2 emptySubCache rfl

/-- C2: while blocked and before `nextAttempt`, `request` fails with a
RateLimitError and issues zero network calls; a 403 response leaves the
guard blocked and raises RateLimitError; a successful request resets
`isBlocked` to false and `nextBlockInterval` to the 60-second floor. -/
theorem request_rateLimit_blocking (now : Nat) (st : RLState) (env : ReqEnv) :
    (st.isBlocked = true → now < st.nextAttempt →
      request now st env = (Except.error ReqError.rateLimit, st, 0)) ∧
    (¬(st.isBlocked = true ∧ now < st.nextAttempt) →
      env.first = HttpOutcome.status 403 →
      (request now st env).1 = Except.error ReqError.rateLimit ∧
      (request now st env).2.1.isBlocked = true) ∧
    (¬(st.isBlocked = true ∧ now < st.nextAttempt) → env.first = HttpOutcome.ok →
      request now st env =
        (Except.ok (), { st with isBlocked := false,
                                 nextBlockInterval := rateLimitInitialInterval }, 1)) := by
  refine ⟨?_, ?_, ?_⟩
  · intro hb hn
    rw [request, if_pos ⟨hb, hn⟩]
  · intro hg hf
    rw [request, if_neg hg, hf]
    norm_num
    exact setRateLimitHandler_isBlocked now st
  · intro hg hf
    rw [request, if_neg hg, hf]
    rfl

/-- C2 witness: a blocked state fails fast with no network call, a concrete
403 leaves the guard engaged, and a success after the wait restores the
floor. -/
theorem request_rateLimit_blocking_witness :
    request 5 ⟨true, 120000, 100⟩ ⟨HttpOutcome.ok, RefreshOutcome.ok, HttpOutcome.ok⟩ =
      (Except.error ReqError.rateLimit, ⟨true, 120000, 100⟩, 0) ∧
    (request 0 ⟨false, 60000, 0⟩
        ⟨HttpOutcome.status 403, RefreshOutcome.ok, HttpOutcome.ok⟩).2.1.isBlocked = true ∧
    request 200 ⟨true, 120000, 100⟩ ⟨HttpOutcome.ok, RefreshOutcome.ok, HttpOutcome.ok⟩ =
      (Except.ok (), ⟨false, 60000, 100⟩, 1) :=
  ⟨(request_rateLimit_blocking 5 ⟨true, 120000, 100⟩ _).1 rfl (by norm_num),
   ((request_rateLimit_blocking 0 ⟨false, 60000, 0⟩ _).2.1 (by simp) rfl).2,
   (request_rateLimit_blocking 200 ⟨true, 120000, 100⟩ _).2.2 (by simp) rfl⟩

/-- C3 counterexample: starting from the 60-second floor, the seventh
consecutive engagement leaves `nextBlockInterval` at 7,680,000 ms, strictly
above the 2-hour (7,200,000 ms) ceiling, refuting "never exceeds the 2-hour
ceiling". -/
theorem nextBlockInterval_exceeds_ceiling :
    (engageTimes 0 7 freshRLState).nextBlockInterval = 7680000 ∧
    rateLimitMaxInterval < (engageTimes 0 7 freshRLState).nextBlockInterval := by
  decide

/-- C3 (amended): starting from the floor, `nextBlockInterval` doubles on
each consecutive engagement while it is below the 2-hour constant and then
stalls, so after `n` engagements it equals `60000 * 2 ^ min n 7`; it is
bounded by 7,680,000 ms (which exceeds the 2-hour constant by 480,000 ms). -/
theorem nextBlockInterval_doubling_behavior (now n : Nat) :
    (engageTimes now n freshRLState).nextBlockInterval =
      rateLimitInitialInterval * 2 ^ (min n 7) ∧
    (engageTimes now n freshRLState).nextBlockInterval ≤ 7680000 := by
  refine ⟨engageTimes_interval now n, ?_⟩
  rw [engageTimes_interval now n]
  have h2 : 2 ^ (min n 7) ≤ 2 ^ 7 := Nat.pow_le_pow_right (by norm_num) (by omega)
  calc rateLimitInitialInterval * 2 ^ (min n 7)
      ≤ rateLimitInitialInterval * 2 ^ 7 := Nat.mul_le_mul_left _ h2
    _ = 7680000 := by norm_num [rateLimitInitialInterval]

/-- C4 counterexample: the retry delay scheduled after consecutive
rate-limit failures, `2 ^ n * SOCKET_RETRY_INTERVAL`, admits no cap. -/
theorem rateLimitRetryInterval_uncapped :
    ¬ ∃ C : Nat, ∀ nFail : Nat, rateLimitRetryInterval nFail ≤ C := by
  rintro ⟨C, hC⟩
  have h1 : C < 2 ^ C := Nat.lt_two_pow C
  have h3 := hC C
  simp only [rateLimitRetryInterval, SOCKET_RETRY_INTERVAL] at h3
  omega

/-- C4 (amended): consecutive rate-limit failures starting from failure
count 0 schedule retries at `1000 * 2 ^ i` ms for the i-th failure, without
any cap; the count resets to 0 on a `CONNECTED` event; and every plain
`CONNECTION_LOST` schedules the retry at the fixed 1000 ms interval. -/
theorem socketRetryPolicy (n k : Nat) :
    listenTrace 0 (List.replicate k ListenEvent.rateLimitErr) =
      (List.range k).map (fun i => some (rateLimitRetryInterval i)) ∧
    listenTrace n (List.replicate k ListenEvent.connectionLost) =
      List.replicate k (some SOCKET_RETRY_INTERVAL) ∧
    alarmStep n ListenEvent.connected = (0, none) := by
  refine ⟨?_, listenTrace_connectionLost k n, rfl⟩
  have h := listenTrace_rateLimit k 0
  simpa [rateLimitRetryInterval] using h

/-- C5: after subscribing, unsubscribing the last sensor subscriber, and
subscribing again, the polling timer is dead although one subscriber is
registered — `clearInterval` never clears the `sensorRefreshInterval`
field, so the restart guard in `subscribeToSensor` never fires again. -/
theorem sensorTimer_not_restarted :
    (subscribeToSensor 1 (unsubscribeFromSensor 1
        (subscribeToSensor 1 emptyPollState))).timerAlive = false ∧
    (subscribeToSensor 1 (unsubscribeFromSensor 1
        (subscribeToSensor 1 emptyPollState))).subs = [1] := by
  decide

/-- C6: for a push matching this account whose event type is neither
`alarm` nor `alarmCancel`, event code 1407 invokes the callback with the
normalized `ALARM_DISARM` event and calls the lockout-arming routine, while
event code 1602 invokes no callback at all. -/
theorem socketCallback_disarm_and_test (subId : Nat) (d : PushData)
    (hsid : d.sid = subId) (ha : d.eventType ≠ PushType.alarm)
    (hac : d.eventType ≠ PushType.alarmCancel) :
    (d.eventCid = 1407 →
      socketCallback subId d = ⟨some (some EventKind.ALARM_DISARM), true⟩) ∧
    (d.eventCid = 1602 → socketCallback subId d = ⟨none, false⟩) := by
  obtain ⟨sid, et, cid⟩ := d
  simp only at hsid ha hac
  subst hsid
  constructor
  · intro hc
    simp only at hc
    subst hc
    cases et <;> simp_all [socketCallback]
  · intro hc
    simp only at hc
    subst hc
    cases et <;> simp_all [socketCallback]

/-- C6 witness: concrete activity pushes with codes 1407 and 1602. -/
theorem socketCallback_disarm_and_test_witness :
    socketCallback 7 ⟨7, PushType.activity, 1407⟩ =
      ⟨some (some EventKind.ALARM_DISARM), true⟩ ∧
    socketCallback 7 ⟨7, PushType.activity, 1602⟩ = ⟨none, false⟩ :=
  ⟨(socketCallback_disarm_and_test 7 ⟨7, PushType.activity, 1407⟩ rfl
      (by decide) (by decide)).1 rfl,
   (socketCallback_disarm_and_test 7 ⟨7, PushType.activity, 1602⟩ rfl
      (by decide) (by decide)).2 rfl⟩

/-- C7: arming the sensor-refresh lockout while lock hardware was never
observed (`sensorRefreshLockoutEnabled` false) changes nothing; with lock
hardware present, arming twice within the window replaces the pending timer
so the single lockout fires 15 seconds after the second arm. -/
theorem lockout_gate_and_debounce (st : LockoutState) (t1 t2 : Nat) :
    (st.enabled = false →
      handleSensorRefreshLockout t2 (handleSensorRefreshLockout t1 st) = st) ∧
    (st.enabled = true → t2 < t1 + sensorRefreshLockoutDuration →
      (handleSensorRefreshLockout t2 (handleSensorRefreshLockout t1 st)).timeout =
        some (t2 + sensorRefreshLockoutDuration)) := by
  constructor
  · intro he
    simp [handleSensorRefreshLockout, he]
  · intro he _
    simp [handleSensorRefreshLockout, he]

/-- C7 witness: a disabled state is untouched; an enabled state re-armed
10 s into the window fires 15 s after the second arm. -/
theorem lockout_gate_and_debounce_witness :
    handleSensorRefreshLockout 10000 (handleSensorRefreshLockout 0 ⟨false, none⟩) =
      (⟨false, none⟩ : LockoutState) ∧
    (handleSensorRefreshLockout 10000 (handleSensorRefreshLockout 0 ⟨true, none⟩)).timeout =
      some (10000 + sensorRefreshLockoutDuration) :=
  ⟨(lockout_gate_and_debounce ⟨false, none⟩ 0 10000).1 rfl,
   (lockout_gate_and_debounce ⟨true, none⟩ 0 10000).2 rfl
     (by norm_num [sensorRefreshLockoutDuration])⟩

/-- C8: a 409 (or 504) rejection of the alarm set-state operation is
retried up to 5 times at 1-second spacing; `k ≤ 5` retryable failures
followed by a success deliver success with the counter reset to 0, while 6
consecutive failures surface the error to the caller after the 5 retries. -/
theorem setTargetState_retry_policy (k s : Nat) (hk : k ≤ targetStateMaxRetries)
    (hs : s = 409 ∨ s = 504) :
    setTargetState 0 (List.replicate k (SetOutcome.err s) ++ [SetOutcome.ok]) =
      (SetResult.success 0, k + 1, List.replicate k 1000) ∧
    setTargetState 0 (List.replicate 6 (SetOutcome.err s)) =
      (SetResult.failure s 0, 6, List.replicate 5 1000) := by
  constructor
  · exact setTargetState_success_trace k s 0 (by omega) hs
  · rcases hs with h | h <;> subst h <;> decide

/-- C8 witness: five 409s then success, and six consecutive 409s. -/
theorem setTargetState_retry_policy_witness :
    setTargetState 0 (List.replicate 5 (SetOutcome.err 409) ++ [SetOutcome.ok]) =
      (SetResult.success 0, 5 + 1, List.replicate 5 1000) ∧
    setTargetState 0 (List.replicate 6 (SetOutcome.err 409)) =
      (SetResult.failure 409 0, 6, List.replicate 5 1000) :=
  ⟨(setTargetState_retry_policy 5 409 (by decide) (Or.inl rfl)).1,
   (setTargetState_retry_policy 5 409 (by decide) (Or.inl rfl)).2⟩

/-- C9: an input whose lowercased value is outside `validAlarmStates` makes
`setAlarmState` fail with the invalid-target-state error, issuing zero
network calls and leaving the client state untouched; any input lowercasing
into the set passes validation and proceeds to the network call. -/
theorem setAlarmState_validation (s : String) (reqOk : Bool) (now : Nat)
    (lo : LockoutState) :
    (validAlarmStates.contains (toLowerCase s) = false →
      setAlarmState s reqOk now lo = (AlarmSetStep.invalidState, 0, lo)) ∧
    (validAlarmStates.contains (toLowerCase s) = true →
      (setAlarmState s reqOk now lo).1 ≠ AlarmSetStep.invalidState ∧
      (setAlarmState s reqOk now lo).2.1 = 1) := by
  constructor
  · intro h
    simp only [setAlarmState]
    rw [if_pos h]
  · intro h
    simp only [setAlarmState]
    rw [if_neg (by rw [h]; decide)]
    cases reqOk <;> simp

/-- C9 witness: "bogus" is rejected before any network call; "AWAY" passes
validation despite its letter case. -/
theorem setAlarmState_validation_witness :
    setAlarmState "bogus" true 0 ⟨true, none⟩ =
      (AlarmSetStep.invalidState, 0, (⟨true, none⟩ : LockoutState)) ∧
    ((setAlarmState "AWAY" true 0 ⟨true, none⟩).1 ≠ AlarmSetStep.invalidState ∧
      (setAlarmState "AWAY" true 0 ⟨true, none⟩).2.1 = 1) :=
  ⟨(setAlarmState_validation "bogus" true 0 ⟨true, none⟩).1 (by decide),
   (setAlarmState_validation "AWAY" true 0 ⟨true, none⟩).2 (by decide)⟩

/-- C10: every `setAlarmState` call whose upstream POST succeeds also runs
the sensor-refresh lockout arming as a side effect, subject to the
lock-hardware-present gate: with the gate open the lockout timer is set to
fire 15 s later, with it closed the lockout state is unchanged. -/
theorem setAlarmState_arms_lockout (s : String) (now : Nat) (lo : LockoutState)
    (hv : validAlarmStates.contains (toLowerCase s) = true) :
    (setAlarmState s true now lo).2.2 = handleSensorRefreshLockout now lo ∧
    (lo.enabled = true →
      (setAlarmState s true now lo).2.2.timeout =
        some (now + sensorRefreshLockoutDuration)) ∧
    (lo.enabled = false → (setAlarmState s true now lo).2.2 = lo) := by
  have hbase : (setAlarmState s true now lo).2.2 = handleSensorRefreshLockout now lo := by
    simp only [setAlarmState]
    rw [if_neg (by rw [hv]; decide)]
    rfl
  refine ⟨hbase, ?_, ?_⟩
  · intro he
    rw [hbase]
    simp [handleSensorRefreshLockout, he]
  · intro he
    rw [hbase]
    simp [handleSensorRefreshLockout, he]

/-- C10 witness: a successful `setAlarmState "off"` with the gate open arms
the lockout to fire 15 s later. -/
theorem setAlarmState_arms_lockout_witness :
    (setAlarmState "off" true 42 ⟨true, none⟩).2.2 =
      handleSensorRefreshLockout 42 ⟨true, none⟩ ∧
    (setAlarmState "off" true 42 ⟨true, none⟩).2.2.timeout =
      some (42 + sensorRefreshLockoutDuration) :=
  ⟨(setAlarmState_arms_lockout "off" 42 ⟨true, none⟩ (by decide)).1,
   (setAlarmState_arms_lockout "off" 42 ⟨true, none⟩ (by decide)).2.1 rfl⟩

end SS3
